import Mathlib

/-!
Verification of the token-alert pipeline of a market-monitoring bot
(src/main.py). The adapters (fetch_binance, fetch_coingecko,
fetch_dexscreener) normalize loosely-typed JSON records into token
dictionaries; token_filter, is_new_crypto, is_alpha classify them; and
check_tokens selects the volatile tokens for the alert message.

Modelling conventions:
- JSON scalar values are `JVal` (null, number, string, bool); numbers are
  exact rationals (the Python code compares floats whose literals are
  exactly representable at the precisions used here).
- Python truthiness of a value (`if v:`, `v or 0`) is `JVal.truthy`.
- `float(v)` is `pyFloat : JVal → Option ℚ`; `none` models the
  ValueError/TypeError that Python raises. String parsing covers the
  plain signed decimal forms the sources use.
- Timestamps (datetime values) are integer epoch seconds; `timedelta(days=n)`
  is `n * 86400`; `datetime.fromisoformat` is an abstract parameter
  `parse : String → Option ℤ` since it is a stdlib routine external
  to the repository.
- Each adapter wraps its whole normalization loop in one try/except that
  returns `[]` on any exception: `tryAll` maps a fallible per-record
  normalizer over the batch and collapses any failure to `none`, which
  the adapter turns into `[]`.
-/

/-- A JSON scalar value as the Python code receives it. -/
inductive JVal where
  | jnull : JVal
  | jnum : ℚ → JVal
  | jstr : String → JVal
  | jbool : Bool → JVal
deriving DecidableEq

/-- Python truthiness of a scalar value. -/
def JVal.truthy : JVal → Bool
  | .jnull => false
  | .jnum q => q != 0
  | .jstr s => s != ""
  | .jbool b => b

/-- Python `x.get(k) or 0`: a missing key gives None (falsy), a falsy
value is replaced by the number 0, a truthy value is kept. -/
def pyOrZero : Option JVal → JVal
  | none => .jnum 0
  | some v => if v.truthy then v else .jnum 0

/-- Accumulate a digit string into a natural number. -/
def digitsToNat (cs : List Char) : ℕ :=
  cs.foldl (fun a c => a * 10 + (c.toNat - 48)) 0

/-- Parse an unsigned decimal literal: digits with an optional single
dot, at least one digit present. Returns none on anything else, the way
Python float() raises ValueError. -/
def parseUnsignedFloat (cs : List Char) : Option ℚ :=
  let ip := cs.takeWhile (fun c => c ≠ '.')
  let rest := cs.dropWhile (fun c => c ≠ '.')
  match rest with
  | [] =>
    if ip ≠ [] ∧ ip.all Char.isDigit then some (digitsToNat ip : ℚ) else none
  | _ :: fp =>
    if (ip ≠ [] ∨ fp ≠ []) ∧ ip.all Char.isDigit ∧ fp.all Char.isDigit ∧
        fp.all (fun c => c ≠ '.') then
      some ((digitsToNat ip : ℚ) + (digitsToNat fp : ℚ) / (10 : ℚ) ^ fp.length)
    else none

/-- Python float() on a string: optional sign then unsigned decimal. -/
def parsePyFloat (s : String) : Option ℚ :=
  match s.data with
  | '-' :: t => (parseUnsignedFloat t).map Neg.neg
  | '+' :: t => parseUnsignedFloat t
  | t => parseUnsignedFloat t

/-- Python float() on a scalar: numbers pass through, strings are parsed,
bools become 0/1, None raises (modelled as none). -/
def pyFloat : JVal → Option ℚ
  | .jnull => none
  | .jnum q => some q
  | .jstr s => parsePyFloat s
  | .jbool b => some (if b then 1 else 0)

/-- The canonical token dictionary every adapter produces:
keys symbol, price, change, supply, listed of src/main.py. -/
structure Token where
  symbol : String
  price : ℚ
  change : ℚ
  supply : Option ℚ
  listed : Option ℤ
deriving DecidableEq

/-- Raw Binance ticker record: the fields fetch_binance reads. -/
structure RawBinance where
  symbol : Option String
  lastPrice : Option JVal
  priceChangePercent : Option JVal
deriving DecidableEq

/-- Raw CoinGecko markets record: the fields fetch_coingecko reads.
max_supply is a JSON number or null/absent. -/
structure RawCoingecko where
  symbol : Option String
  current_price : Option JVal
  price_change_percentage_24h : Option JVal
  max_supply : Option ℚ
  atl_date : Option JVal
  ath_date : Option JVal
  last_updated : Option JVal
deriving DecidableEq

/-- Raw Dexscreener pair record: the fields fetch_dexscreener reads.
pairCreatedAt is a millisecond epoch number or absent. -/
structure RawPair where
  baseSymbol : Option String
  priceUsd : Option JVal
  changeH24 : Option JVal
  pairCreatedAt : Option ℤ
deriving DecidableEq

/-- Normalize one Binance record (body of the list comprehension in
fetch_binance). A float() failure raises, modelled as none. -/
def binanceNormOne (x : RawBinance) : Option Token := do
  let price ← pyFloat (pyOrZero x.lastPrice)
  let change ← pyFloat (pyOrZero x.priceChangePercent)
  some { symbol := x.symbol.getD "UNK", price := price, change := change,
         supply := none, listed := none }

/-- Map a fallible normalizer over a batch; any failure fails the whole
batch, the way one exception aborts the comprehension or loop. -/
def tryAll (f : α → Option Token) : List α → Option (List Token)
  | [] => some []
  | a :: l =>
    match f a, tryAll f l with
    | some b, some bs => some (b :: bs)
    | _, _ => none

/-- fetch_binance on already-decoded JSON: normalize every record; the
surrounding try/except turns any exception into an empty result. -/
def fetch_binance (data : List RawBinance) : List Token :=
  (tryAll binanceNormOne data).getD []

/-- Python chain a or b for optional values (get returns None when the
key is absent): first operand if truthy, else second. -/
def orChain2 (a b : Option JVal) : Option JVal :=
  match a with
  | some v => if v.truthy then some v else b
  | none => b

/-- listed_str = x.get("atl_date") or x.get("ath_date") or x.get("last_updated") -/
def orChain3 (a b c : Option JVal) : Option JVal :=
  orChain2 a (orChain2 b c)

/-- s.replace("Z", ""): drop every Z character. -/
def stripZ (s : String) : String :=
  ⟨s.data.filter (fun c => c ≠ 'Z')⟩

/-- Python str.upper() on one character, for the ASCII range the ticker
symbols use. -/
def upChar (c : Char) : Char :=
  if 'a' ≤ c ∧ c ≤ 'z' then Char.ofNat (c.toNat - 32) else c

/-- Python str.upper() on a symbol string. -/
def pyUpper (s : String) : String :=
  ⟨s.data.map upChar⟩

/-- The listed field of one CoinGecko record: take the or-chain of the
three date fields; if truthy and a string, parse it with Z stripped
(fromisoformat is the parse parameter); any failure, including a
non-string value whose replace call raises, is caught and gives None. -/
def cgListed (parse : String → Option ℤ) (x : RawCoingecko) : Option ℤ :=
  match orChain3 x.atl_date x.ath_date x.last_updated with
  | none => none
  | some v =>
    if v.truthy then
      match v with
      | .jstr s => parse (stripZ s)
      | _ => none
    else none

/-- The date string cgListed would hand to the parser, when there is one:
the first truthy of the three date fields, if it is a nonempty string. -/
def cgChosenStr (x : RawCoingecko) : Option String :=
  match orChain3 x.atl_date x.ath_date x.last_updated with
  | some (.jstr s) => if s = "" then none else some s
  | _ => none

/-- Normalize one CoinGecko record (loop body of fetch_coingecko).
supply is x.get("max_supply") or 0 stored as-is, so an absent or null
max_supply becomes the number 0, not None. -/
def cgNormOne (parse : String → Option ℤ) (x : RawCoingecko) : Option Token := do
  let price ← pyFloat (pyOrZero x.current_price)
  let change ← pyFloat (pyOrZero x.price_change_percentage_24h)
  some { symbol := pyUpper (x.symbol.getD "UNK"), price := price,
         change := change, supply := some (x.max_supply.getD 0),
         listed := cgListed parse x }

/-- fetch_coingecko on already-decoded JSON. -/
def fetch_coingecko (parse : String → Option ℤ) (data : List RawCoingecko) :
    List Token :=
  (tryAll (cgNormOne parse) data).getD []

/-- listed handling of fetch_dexscreener: utcfromtimestamp(listed // 1000)
when pairCreatedAt is truthy, else None. Python floor division is fdiv. -/
def dexListed (p : RawPair) : Option ℤ :=
  match p.pairCreatedAt with
  | some v => if v ≠ 0 then some (Int.fdiv v 1000) else none
  | none => none

/-- Normalize one Dexscreener pair (loop body of fetch_dexscreener). -/
def dexNormOne (p : RawPair) : Option Token := do
  let price ← pyFloat (pyOrZero p.priceUsd)
  let change ← pyFloat (pyOrZero p.changeH24)
  some { symbol := p.baseSymbol.getD "UNK", price := price, change := change,
         supply := none, listed := dexListed p }

/-- fetch_dexscreener on already-decoded pair list. -/
def fetch_dexscreener (pairs : List RawPair) : List Token :=
  (tryAll dexNormOne pairs).getD []

/-- token_filter of src/main.py: the supply-price band check. The guard
`if supply:` is Python truthiness, so None and 0 both fail it. -/
def token_filter (t : Token) : Bool :=
  match t.supply with
  | none => false
  | some s =>
    if s = 0 then false
    else
      decide (s ≤ 1000000000 ∧ 2/100 ≤ t.price ∧ t.price ≤ 5/100) ||
      decide (s ≤ 10000000000 ∧ 2/1000 ≤ t.price ∧ t.price ≤ 5/1000)

/-- is_new_crypto: listed known, age at most 60 days, and token_filter.
A datetime is always truthy, so `if not listed:` means listed is None. -/
def is_new_crypto (now : ℤ) (t : Token) : Bool :=
  match t.listed with
  | none => false
  | some l => decide (now - l ≤ 60 * 86400) && token_filter t

/-- is_alpha: listed known and age at most 7 days, no band check. -/
def is_alpha (now : ℤ) (t : Token) : Bool :=
  match t.listed with
  | none => false
  | some l => decide (now - l ≤ 7 * 86400)

/-- The selection predicate of check_tokens:
abs(change) >= 5 and token_filter(token). -/
def volatilePred (t : Token) : Bool :=
  decide (5 ≤ |t.change|) && token_filter t

/-- check_tokens of src/main.py, restricted to the selection it makes:
the sub-list of fetched tokens passing the volatility and band checks,
in source order, with no de-duplication step. -/
def check_tokens (tokens : List Token) : List Token :=
  tokens.filter volatilePred

/-- The band predicate as the specification words it for a known supply:
a supply tier cap together with an inclusive price range, with the
additional fact (visible only in the code) that supply must be nonzero. -/
def inBandKnown (t : Token) : Prop :=
  ∃ s, t.supply = some s ∧ s ≠ 0 ∧
    ((s ≤ 1000000000 ∧ 2/100 ≤ t.price ∧ t.price ≤ 5/100) ∨
     (s ≤ 10000000000 ∧ 2/1000 ≤ t.price ∧ t.price ≤ 5/1000))

/-- token_filter passes exactly the tokens with a known nonzero supply
inside one of the two bands. -/
theorem token_filter_iff (t : Token) : token_filter t = true ↔ inBandKnown t := by
  unfold token_filter inBandKnown
  cases h : t.supply with
  | none => simp
  | some s =>
    by_cases hs : s = 0
    · subst hs; simp
    · simp [hs]

/-- One failing record fails the whole batch: the single try/except around
the normalization loop loses every sibling observation. -/
theorem tryAll_append_none (f : α → Option Token) (pre post : List α) (x : α)
    (h : f x = none) : tryAll f (pre ++ x :: post) = none := by
  induction pre with
  | nil => simp [tryAll, h]
  | cons a l ih =>
    simp only [List.cons_append, tryAll, List.append_eq, ih]
    cases f a <;> rfl

/-- The listed field of a CoinGecko record is exactly the parse of the
chosen date string (Z stripped) when there is one, and None otherwise;
it is never any other value. -/
theorem cgListed_char (parse : String → Option ℤ) (x : RawCoingecko) :
    cgListed parse x = (cgChosenStr x).bind (fun s => parse (stripZ s)) := by
  unfold cgListed cgChosenStr
  cases h : orChain3 x.atl_date x.ath_date x.last_updated with
  | none => rfl
  | some v =>
    cases v with
    | jnull => simp [JVal.truthy]
    | jbool b => cases b <;> simp [JVal.truthy]
    | jnum q =>
      by_cases hq : q = 0 <;> simp [JVal.truthy, hq]
    | jstr s =>
      by_cases hs : s = "" <;> simp [JVal.truthy, hs]

/-- C7: the band price bounds are inclusive: price exactly 0.05 with max
supply 1,000,000,000 passes the tier-one band check, price 0.050001 with
the same supply passes neither band. -/
theorem C7_inclusive_bounds :
    token_filter ⟨"A", 5/100, 0, some 1000000000, none⟩ = true ∧
    token_filter ⟨"A", 50001/1000000, 0, some 1000000000, none⟩ = false := by
  constructor <;> · simp only [token_filter]; norm_num

/-- C10: a token whose supply is exactly 0 never passes token_filter,
is never a RecentListing, and is never selected by check_tokens. -/
theorem C10_zero_supply_excluded (t : Token) (h : t.supply = some 0) :
    token_filter t = false ∧ (∀ now : ℤ, is_new_crypto now t = false) ∧
    check_tokens [t] = [] := by
  have hf : token_filter t = false := by simp [token_filter, h]
  refine ⟨hf, fun now => ?_, ?_⟩
  · cases hl : t.listed <;> simp [is_new_crypto, hl, hf]
  · simp [check_tokens, volatilePred, hf]

/-- C10 witness: a concrete zero-supply token priced inside the tier-one
band with high volatility is still excluded everywhere. -/
theorem C10_zero_supply_excluded_w :
    token_filter ⟨"ZSUP", 3/100, 10, some 0, none⟩ = false ∧
    (∀ now : ℤ, is_new_crypto now ⟨"ZSUP", 3/100, 10, some 0, none⟩ = false) ∧
    check_tokens [⟨"ZSUP", 3/100, 10, some 0, none⟩] = [] :=
  C10_zero_supply_excluded ⟨"ZSUP", 3/100, 10, some 0, none⟩ rfl

/-- C5: a token with unknown (None) supply never passes token_filter and
is never a RecentListing, whatever its price, change or listing date. -/
theorem C5_none_supply_excluded (t : Token) (h : t.supply = none) :
    token_filter t = false ∧ (∀ now : ℤ, is_new_crypto now t = false) := by
  have hf : token_filter t = false := by simp [token_filter, h]
  exact ⟨hf, fun now => by cases hl : t.listed <;> simp [is_new_crypto, hl, hf]⟩

/-- C5 witness: a concrete unknown-supply token, freshly listed and
priced in band, is still excluded from both classifications. -/
theorem C5_none_supply_excluded_w :
    token_filter ⟨"NSUP", 3/100, 10, none, some 86400⟩ = false ∧
    (∀ now : ℤ, is_new_crypto now ⟨"NSUP", 3/100, 10, none, some 86400⟩ = false) :=
  C5_none_supply_excluded ⟨"NSUP", 3/100, 10, none, some 86400⟩ rfl

/-- C6: is_alpha holds exactly when the listing date is known and the age
is at most 7 days, with no band check; and the concrete token listed 3
days before now with unknown supply and price 1.20 is alpha only --
neither token_filter, nor RecentListing, nor the volatile selection. -/
theorem C6_alpha_fresh_only :
    (∀ (now : ℤ) (t : Token), is_alpha now t = true ↔
        ∃ l, t.listed = some l ∧ now - l ≤ 7 * 86400) ∧
    (is_alpha 864000 ⟨"NEWT", 6/5, 12, none, some 604800⟩ = true ∧
     token_filter ⟨"NEWT", 6/5, 12, none, some 604800⟩ = false ∧
     is_new_crypto 864000 ⟨"NEWT", 6/5, 12, none, some 604800⟩ = false ∧
     check_tokens [⟨"NEWT", 6/5, 12, none, some 604800⟩] = []) := by
  constructor
  · intro now t
    cases hl : t.listed <;> simp [is_alpha, hl]
  · refine ⟨?_, ?_, ?_, ?_⟩
    · simp [is_alpha]
    · simp [token_filter]
    · simp [is_new_crypto, token_filter]
    · simp [check_tokens, volatilePred, token_filter]

/-- C4 counterexample: a token with supply exactly 0, price 0.03 and
change 10 satisfies the claim's selection condition (change at least 5,
supply at most the tier-one cap, price inside the tier-one range), yet
check_tokens does not select it: the code also requires a truthy
(nonzero) supply. -/
theorem C4_cex :
    (∃ s : ℚ, (⟨"ZBAND", 3/100, 10, some 0, none⟩ : Token).supply = some s ∧
        s ≤ 1000000000 ∧
        2/100 ≤ (⟨"ZBAND", 3/100, 10, some 0, none⟩ : Token).price ∧
        (⟨"ZBAND", 3/100, 10, some 0, none⟩ : Token).price ≤ 5/100) ∧
    5 ≤ |(⟨"ZBAND", 3/100, 10, some 0, none⟩ : Token).change| ∧
    check_tokens [⟨"ZBAND", 3/100, 10, some 0, none⟩] = [] := by
  refine ⟨⟨0, rfl, by norm_num, by norm_num, by norm_num⟩, by norm_num, ?_⟩
  simp [check_tokens, volatilePred, token_filter]

/-- C4 (amended): check_tokens selects a token exactly when the absolute
24h change is at least 5 and the token has a known, nonzero supply lying
in one of the two bands with the price in that band's inclusive range. -/
theorem C4_volatile_selection (ts : List Token) (t : Token) :
    t ∈ check_tokens ts ↔ t ∈ ts ∧ 5 ≤ |t.change| ∧ inBandKnown t := by
  simp [check_tokens, List.mem_filter, volatilePred, Bool.and_eq_true,
        decide_eq_true_eq, token_filter_iff, and_assoc]

/-- C1 counterexample: two observations whose symbols are equal after
case normalization, both passing the volatility and band checks, are
BOTH kept by check_tokens -- there is no de-duplication step, so the
symbol is counted twice. -/
theorem C1_cex :
    check_tokens [⟨"ABC", 3/100, 10, some 500000000, none⟩,
                  ⟨"abc", 31/1000, 11, some 400000000, none⟩] =
      [⟨"ABC", 3/100, 10, some 500000000, none⟩,
       ⟨"abc", 31/1000, 11, some 400000000, none⟩] ∧
    pyUpper "ABC" = pyUpper "abc" ∧
    (check_tokens [⟨"ABC", 3/100, 10, some 500000000, none⟩,
                   ⟨"abc", 31/1000, 11, some 400000000, none⟩]).length = 2 := by
  have h : check_tokens [⟨"ABC", 3/100, 10, some 500000000, none⟩,
      ⟨"abc", 31/1000, 11, some 400000000, none⟩] =
      [⟨"ABC", 3/100, 10, some 500000000, none⟩,
       ⟨"abc", 31/1000, 11, some 400000000, none⟩] := by
    simp [check_tokens, volatilePred, token_filter]
    norm_num
  exact ⟨h, by decide, by rw [h]; rfl⟩

/-- C1 (amended): check_tokens performs no de-duplication: for every
case-normalized symbol, the number of selected observations carrying it
equals the number of input observations carrying it that pass the
volatility and band checks, so duplicates across adapters are all kept. -/
theorem C1_no_dedup (ts : List Token) (s : String) :
    ((check_tokens ts).filter (fun t => pyUpper t.symbol == s)).length =
      (ts.filter (fun t => (pyUpper t.symbol == s) && volatilePred t)).length := by
  simp [check_tokens, List.filter_filter]

/-- C2 counterexample: a Binance batch with one good record and one whose
lastPrice is the unparsable string "abc" normalizes to the empty list:
the float() failure is caught only at the adapter boundary, so the
malformed observation AND its well-formed sibling are both discarded,
instead of the malformed field defaulting to 0. -/
theorem C2_cex :
    fetch_binance [⟨some "GOOD", some (.jnum 1), some (.jnum 1)⟩,
                   ⟨some "BAD", some (.jstr "abc"), none⟩] = [] ∧
    binanceNormOne ⟨some "BAD", some (.jstr "abc"), none⟩ = none := by
  constructor <;> rfl

/-- C2 (amended): an absent or falsy (null, empty-string, zero) price or
change field defaults to 0 and the record is kept; but a present
non-numeric string fails the whole batch of the adapter that saw it,
which returns the empty list; no exception reaches the caller. -/
theorem C2_default_or_batch_loss :
    (∀ x : RawBinance, pyOrZero x.lastPrice = .jnum 0 →
        pyOrZero x.priceChangePercent = .jnum 0 →
        binanceNormOne x = some ⟨x.symbol.getD "UNK", 0, 0, none, none⟩) ∧
    (∀ (pre post : List RawBinance) (x : RawBinance), binanceNormOne x = none →
        fetch_binance (pre ++ x :: post) = []) ∧
    (∀ (parse : String → Option ℤ) (pre post : List RawCoingecko)
        (x : RawCoingecko), cgNormOne parse x = none →
        fetch_coingecko parse (pre ++ x :: post) = []) := by
  refine ⟨?_, ?_, ?_⟩
  · intro x hp hc
    simp [binanceNormOne, hp, hc, pyFloat]
  · intro pre post x h
    simp [fetch_binance, tryAll_append_none binanceNormOne pre post x h]
  · intro parse pre post x h
    simp [fetch_coingecko, tryAll_append_none (cgNormOne parse) pre post x h]

/-- C2 witness: concrete instances of all three parts. -/
theorem C2_default_or_batch_loss_w :
    binanceNormOne ⟨some "AAA", none, some (.jstr "")⟩ =
      some ⟨"AAA", 0, 0, none, none⟩ ∧
    fetch_binance [⟨some "G", some (.jnum 1), some (.jnum 1)⟩,
                   ⟨some "BAD2", some (.jstr "x1"), none⟩] = [] ∧
    fetch_coingecko (fun _ => none)
      [⟨some "C", some (.jstr "zz"), none, none, none, none, none⟩] = [] :=
  ⟨C2_default_or_batch_loss.1 ⟨some "AAA", none, some (.jstr "")⟩ rfl rfl,
   C2_default_or_batch_loss.2.1 [⟨some "G", some (.jnum 1), some (.jnum 1)⟩] []
     ⟨some "BAD2", some (.jstr "x1"), none⟩ rfl,
   C2_default_or_batch_loss.2.2 (fun _ => none) [] []
     ⟨some "C", some (.jstr "zz"), none, none, none, none, none⟩ rfl⟩

/-- Any token that binanceNormOne emits carries the raw symbol (default
"UNK"), no supply and no listing date. -/
theorem binanceNormOne_shape (x : RawBinance) (t : Token)
    (h : binanceNormOne x = some t) :
    t.symbol = x.symbol.getD "UNK" ∧ t.supply = none ∧ t.listed = none := by
  unfold binanceNormOne at h
  cases hp : pyFloat (pyOrZero x.lastPrice) with
  | none => rw [hp] at h; simp at h
  | some p =>
    rw [hp] at h
    cases hc : pyFloat (pyOrZero x.priceChangePercent) with
    | none => rw [hc] at h; simp at h
    | some c =>
      rw [hc] at h
      simp at h
      subst h
      exact ⟨rfl, rfl, rfl⟩

/-- Any token that cgNormOne emits carries the uppercased symbol, the
supply max_supply-or-0, and the cgListed date. -/
theorem cgNormOne_shape (parse : String → Option ℤ) (x : RawCoingecko)
    (t : Token) (h : cgNormOne parse x = some t) :
    t.symbol = pyUpper (x.symbol.getD "UNK") ∧
    t.supply = some (x.max_supply.getD 0) ∧
    t.listed = cgListed parse x := by
  unfold cgNormOne at h
  cases hp : pyFloat (pyOrZero x.current_price) with
  | none => rw [hp] at h; simp at h
  | some p =>
    rw [hp] at h
    cases hc : pyFloat (pyOrZero x.price_change_percentage_24h) with
    | none => rw [hc] at h; simp at h
    | some c =>
      rw [hc] at h
      simp at h
      subst h
      exact ⟨rfl, rfl, rfl⟩

/-- Any token that dexNormOne emits carries the raw base-token symbol
(default "UNK"), no supply and the dexListed date. -/
theorem dexNormOne_shape (p : RawPair) (t : Token)
    (h : dexNormOne p = some t) :
    t.symbol = p.baseSymbol.getD "UNK" ∧ t.supply = none ∧
    t.listed = dexListed p := by
  unfold dexNormOne at h
  cases hp : pyFloat (pyOrZero p.priceUsd) with
  | none => rw [hp] at h; simp at h
  | some pr =>
    rw [hp] at h
    cases hc : pyFloat (pyOrZero p.changeH24) with
    | none => rw [hc] at h; simp at h
    | some c =>
      rw [hc] at h
      simp at h
      subst h
      exact ⟨rfl, rfl, rfl⟩

/-- C3 counterexample: a CoinGecko record with max_supply absent
normalizes to supply = some 0, not None: the absence of supply data is
represented as the number 0, and token_filter then treats a token whose
supply is 0 exactly like one whose supply is unknown. -/
theorem C3_cex :
    cgNormOne (fun _ => none)
        ⟨some "foo", some (.jnum 1), some (.jnum 1), none, none, none, none⟩ =
      some ⟨"FOO", 1, 1, some 0, none⟩ ∧
    (some (0 : ℚ) ≠ (none : Option ℚ)) ∧
    token_filter ⟨"B", 3/100, 10, some 0, none⟩ =
      token_filter ⟨"B", 3/100, 10, none, none⟩ := by
  refine ⟨by rfl, by simp, by decide⟩

/-- C3 (amended): CoinGecko normalization stores max_supply or 0, so an
absent max supply becomes the number 0 rather than an explicit None; and
token_filter gives zero-supply and unknown-supply tokens the same
verdict (both rejected), conflating the two. -/
theorem C3_supply_conflated :
    (∀ (parse : String → Option ℤ) (x : RawCoingecko) (t : Token),
        cgNormOne parse x = some t → t.supply = some (x.max_supply.getD 0)) ∧
    (∀ t s : Token, t.supply = some 0 → s.supply = none →
        token_filter t = token_filter s) := by
  constructor
  · intro parse x t h
    exact (cgNormOne_shape parse x t h).2.1
  · intro t s ht hs
    simp [token_filter, ht, hs]

/-- C3 witness: concrete instances of both parts. -/
theorem C3_supply_conflated_w :
    ((⟨"FOO2", 2, 3, some 0, none⟩ : Token).supply =
      some ((none : Option ℚ).getD 0)) ∧
    token_filter ⟨"C", 4/100, 20, some 0, none⟩ =
      token_filter ⟨"C", 4/100, 20, none, none⟩ :=
  ⟨C3_supply_conflated.1 (fun _ => none)
      ⟨some "foo2", some (.jnum 2), some (.jnum 3), none, none, none, none⟩
      ⟨"FOO2", 2, 3, some 0, none⟩ rfl,
   C3_supply_conflated.2 ⟨"C", 4/100, 20, some 0, none⟩
      ⟨"C", 4/100, 20, none, none⟩ rfl rfl⟩

/-- C8 counterexample: fetch_binance keeps a present symbol unchanged: an
empty-string symbol stays empty (not the "UNK" sentinel, not non-empty)
and a lowercase symbol stays lowercase (not uppercased). -/
theorem C8_cex :
    fetch_binance [⟨some "", none, none⟩] = [⟨"", 0, 0, none, none⟩] ∧
    fetch_binance [⟨some "abc", none, none⟩] = [⟨"abc", 0, 0, none, none⟩] ∧
    ("" : String).length = 0 ∧ pyUpper "abc" ≠ "abc" := by
  refine ⟨by rfl, by rfl, by rfl, by decide⟩

/-- C8 (amended): the "UNK" sentinel is used exactly when the source
symbol field is absent; CoinGecko uppercases its symbol, while Binance
and Dexscreener pass theirs through unchanged, so a present lowercase or
empty symbol survives normalization as-is. -/
theorem C8_symbol_passthrough :
    (∀ (x : RawBinance) (t : Token), binanceNormOne x = some t →
        t.symbol = x.symbol.getD "UNK") ∧
    (∀ (parse : String → Option ℤ) (x : RawCoingecko) (t : Token),
        cgNormOne parse x = some t →
        t.symbol = pyUpper (x.symbol.getD "UNK")) ∧
    (∀ (p : RawPair) (t : Token), dexNormOne p = some t →
        t.symbol = p.baseSymbol.getD "UNK") :=
  ⟨fun x t h => (binanceNormOne_shape x t h).1,
   fun parse x t h => (cgNormOne_shape parse x t h).1,
   fun p t h => (dexNormOne_shape p t h).1⟩

/-- C8 witness: concrete instances of the three symbol rules. -/
theorem C8_symbol_passthrough_w :
    ((⟨"abq", 0, 0, none, none⟩ : Token).symbol = (some "abq").getD "UNK") ∧
    ((⟨"UNK", 0, 0, some 0, none⟩ : Token).symbol =
      pyUpper ((none : Option String).getD "UNK")) ∧
    ((⟨"UNK", 0, 0, none, none⟩ : Token).symbol =
      (none : Option String).getD "UNK") :=
  ⟨C8_symbol_passthrough.1 ⟨some "abq", none, none⟩ ⟨"abq", 0, 0, none, none⟩ rfl,
   C8_symbol_passthrough.2.1 (fun _ => none) ⟨none, none, none, none, none, none, none⟩
     ⟨"UNK", 0, 0, some 0, none⟩ rfl,
   C8_symbol_passthrough.2.2 ⟨none, none, none, none⟩ ⟨"UNK", 0, 0, none, none⟩ rfl⟩

/-- C9: a listing date string that fails to parse yields listed = None;
in general the listed field is exactly the parse of the chosen source
date string (never a synthetic current time), and Dexscreener's listed
is either None or the source millisecond timestamp floor-divided by
1000. -/
theorem C9_parse_failure_none :
    (∀ (parse : String → Option ℤ) (x : RawCoingecko) (s : String),
        cgChosenStr x = some s → parse (stripZ s) = none →
        cgListed parse x = none) ∧
    (∀ (parse : String → Option ℤ) (x : RawCoingecko),
        cgListed parse x = (cgChosenStr x).bind (fun s => parse (stripZ s))) ∧
    (∀ p : RawPair, dexListed p = none ∨
        ∃ v, p.pairCreatedAt = some v ∧ v ≠ 0 ∧
          dexListed p = some (Int.fdiv v 1000)) := by
  refine ⟨?_, cgListed_char, ?_⟩
  · intro parse x s hs hp
    rw [cgListed_char, hs]
    simpa using hp
  · intro p
    cases hv : p.pairCreatedAt with
    | none => left; simp [dexListed, hv]
    | some v =>
      by_cases h0 : v = 0
      · left; simp [dexListed, hv, h0]
      · right; exact ⟨v, rfl, h0, by simp [dexListed, hv, h0]⟩

/-- C9 witness: a concrete unparsable date string gives listed = None. -/
theorem C9_parse_failure_none_w :
    cgListed (fun _ => none)
      ⟨none, none, none, none, some (.jstr "notZadate"), none, none⟩ = none :=
  C9_parse_failure_none.1 (fun _ => none)
    ⟨none, none, none, none, some (.jstr "notZadate"), none, none⟩
    "notZadate" rfl rfl
